import Mathlib

/-!
Verification of the artifact retrieval and fingerprint-verification
subsystem of the jenkinsapi client library (`jenkinsapi/artifact.py`).

The Python class `Artifact` is embedded shallowly: the external world
(local filesystem, the HTTP requester, and the server's fingerprint
database as observed through `Fingerprint.validate_for_build` and
`Fingerprint.unknown`) is an explicit `Env` record, and the methods
`save`, `save_to_dir`, `_verify_download`, `_md5sum` and `_do_download`
become pure functions threading that record.  Exceptions become an
`Except Err` result; the action trace of a `save` call (verification of
a pre-existing file, the download, verification of the fresh file) is
recorded in a list so that "no download occurs" claims are statable.
-/

namespace Jenkinsapi

/-- File contents as a list of byte values (Python `bytes`). -/
abbrev Bytes := List Nat

/-- The identity data `artifact.py` reads off `self.build`:
`self.build.job.get_full_name()`, `self.build.buildno`, and
`self.build.job.jenkins.baseurl`. -/
structure Build where
  jobFullName : String
  buildno : Nat
  baseurl : String
deriving Repr, DecidableEq

/-- The fields set by `Artifact.__init__` and never assigned again.
`build = none` models a falsy `self.build` (origin untracked). -/
structure Artifact where
  filename : String
  url : String
  build : Option Build
  relative_path : Option String
deriving Repr, DecidableEq

/-- The exceptions distinguishable in `artifact.py`: `ArtifactBroken`
(the only one `save` catches), an I/O error from opening a missing
file, an `AttributeError` from dereferencing a `None` build, and an
`AssertionError` from the asserts in `save_to_dir`. -/
inductive Err where
  | artifactBroken (msg : String)
  | ioError
  | attrError
  | assertError
deriving Repr, DecidableEq

/-- The external collaborators of the `Artifact` methods.

* `fs` — the local filesystem, path to contents (`os.path.exists`,
  `open(fspath, "rb")`).
* `http` — bytes the requester streams for a URL (`_do_download`).
* `fpValid baseurl md5 filename jobFullName buildno` — the result of
  `Fingerprint(baseurl, md5, jenkins).validate_for_build(filename,
  job_full_name, buildno)`, treated as an oracle exactly as
  `artifact.py` treats it.
* `fpUnknown baseurl md5` — the `unknown` flag of that fingerprint.
* `md5hex` — the hex digest `hashlib.md5` assigns to a full byte
  string; `_md5sum` feeds the state chunkwise, and feeding is modelled
  as concatenation, so the digest is this function of the bytes fed.
* `direxists`, `isdir` — `os.path.exists` / `os.path.isdir` on
  directory paths, for the asserts in `save_to_dir`. -/
structure Env where
  fs : String → Option Bytes
  http : String → Bytes
  fpValid : String → String → String → String → Nat → Bool
  fpUnknown : String → String → Bool
  md5hex : Bytes → String
  direxists : String → Bool
  isdir : String → Bool

/-- One step of the read loop of `_md5sum`: `f.read(chunksize)` returns
the next `min(chunksize, remaining)` bytes of the file.  `fuel` bounds
the number of iterations; `md5Feed` supplies enough fuel for the loop
to reach its `break`, which `md5FeedAux_spec` proves sufficient. -/
def md5FeedAux : Nat → Bytes → Nat → Bytes → Bytes
  | 0, _, _, fed => fed
  | fuel + 1, remaining, chunksize, fed =>
    let chunk := remaining.take chunksize
    if chunk.isEmpty then fed
    else md5FeedAux fuel (remaining.drop chunksize) chunksize (fed ++ chunk)

/-- The bytes fed to the md5 state by `_md5sum`'s loop
`for chunk in iter(lambda: f.read(chunksize), ""): if chunk: update
else: break`, for a file with the given contents. -/
def md5Feed (content : Bytes) (chunksize : Nat) : Bytes :=
  md5FeedAux (content.length + 1) content chunksize []

/-- `Artifact._md5sum`: the hex digest of the bytes fed chunkwise.
`hex` abstracts the md5 finalisation (`hexdigest()`), a pure function
of all bytes fed; the Python default chunk size is `2**20`. -/
def md5sum (hex : Bytes → String) (content : Bytes) (chunksize : Nat) : String :=
  hex (md5Feed content chunksize)

/-- `chunk == ""` where `chunk` is a `bytes` object and `""` the text
sentinel that `iter(lambda: f.read(chunksize), "")` compares against:
in Python 3 a `bytes` value never equals a `str`, so this is
constantly false and the sentinel never stops the iterator. -/
def bytesEqEmptyStr (_ : Bytes) : Bool := false

/-- The `_md5sum` read loop with its control flow verbatim: first the
iterator's sentinel comparison (never true, see `bytesEqEmptyStr`),
then `if chunk: update else: break`.  `none` means the given fuel ran
out before the loop exited, so `∃ fuel, md5IterLoop fuel … = some r`
states termination. -/
def md5IterLoop : Nat → Bytes → Nat → Bytes → Option Bytes
  | 0, _, _, _ => none
  | fuel + 1, remaining, chunksize, fed =>
    let chunk := remaining.take chunksize
    if bytesEqEmptyStr chunk then some fed
    else if !chunk.isEmpty then
      md5IterLoop fuel (remaining.drop chunksize) chunksize (fed ++ chunk)
    else some fed

/-- `Artifact._verify_download(fspath, strict_validation)`.
Order of effects as in the source: `_md5sum` opens the file (I/O error
if absent), then `self.build.job.jenkins.baseurl` dereferences the
build (`AttributeError` if it is `None`), then the fingerprint is
resolved and `raise ArtifactBroken(...)` fires iff
`not valid or (fp.unknown and strict_validation)`. -/
def verify_download (env : Env) (a : Artifact) (fspath : String)
    (strict_validation : Bool) : Except Err Bool :=
  match env.fs fspath with
  | none => Except.error Err.ioError
  | some content =>
    let local_md5 := env.md5hex (md5Feed content 1048576)
    match a.build with
    | none => Except.error Err.attrError
    | some b =>
      let baseurl := b.baseurl
      let valid := env.fpValid baseurl local_md5 a.filename b.jobFullName b.buildno
      if !valid || (env.fpUnknown baseurl local_md5 && strict_validation) then
        Except.error (Err.artifactBroken
          ("Artifact " ++ local_md5 ++ " seems to be broken, check " ++ baseurl))
      else
        Except.ok true

/-- Overwrite one file of the filesystem (the effect of writing the
streamed chunks of `_do_download` to `open(fspath, "wb")`). -/
def setFile (env : Env) (p : String) (c : Bytes) : Env :=
  { env with fs := fun q => if q = p then some c else env.fs q }

/-- `Artifact._do_download(fspath)`: `get_jenkins_obj()` dereferences
`self.build` (`AttributeError` on `None`), then the requester streams
`self.url` into `fspath` and the path is returned. -/
def do_download (a : Artifact) (env : Env) (fspath : String) :
    Except Err (String × Env) :=
  match a.build with
  | none => Except.error Err.attrError
  | some _ => Except.ok (fspath, setFile env fspath (env.http a.url))

/-- The observable steps of a `save` call. -/
inductive Action where
  | verifyExisting
  | download
  | verifyFresh
deriving Repr, DecidableEq

/-- Outcome of `save`/`save_to_dir`: the returned path or exception,
the trace of steps taken, the filesystem after the call, and the
artifact object after the call (no method assigns any field). -/
structure SaveResult where
  result : Except Err String
  actions : List Action
  env : Env
  artifact : Artifact

/-- The tail of `save` after the existence/verification branching:
`filepath = self._do_download(fspath)` followed by
`self._verify_download(filepath, strict_validation)` and
`return fspath`; any exception of either call propagates. -/
def downloadPhase (a : Artifact) (env : Env) (fspath : String)
    (strict_validation : Bool) (acts : List Action) : SaveResult :=
  match do_download a env fspath with
  | Except.error e => ⟨Except.error e, acts ++ [Action.download], env, a⟩
  | Except.ok (filepath, env2) =>
    match verify_download env2 a filepath strict_validation with
    | Except.ok _ =>
        ⟨Except.ok fspath, acts ++ [Action.download, Action.verifyFresh], env2, a⟩
    | Except.error e =>
        ⟨Except.error e, acts ++ [Action.download, Action.verifyFresh], env2, a⟩

/-- `Artifact.save(fspath, strict_validation)`.  The filename-suffix
check only logs a warning and is control-flow irrelevant.  If the file
exists and the build is known, the existing file is verified: success
returns `fspath` at once, `ArtifactBroken` alone is caught and leads
to the download phase, any other exception propagates.  A missing file
or an unknown build goes straight to the download phase. -/
def Artifact.save (a : Artifact) (env : Env) (fspath : String)
    (strict_validation : Bool) : SaveResult :=
  if (env.fs fspath).isSome then
    match a.build with
    | some _ =>
      match verify_download env a fspath strict_validation with
      | Except.ok _ => ⟨Except.ok fspath, [Action.verifyExisting], env, a⟩
      | Except.error (Err.artifactBroken _) =>
          downloadPhase a env fspath strict_validation [Action.verifyExisting]
      | Except.error e => ⟨Except.error e, [Action.verifyExisting], env, a⟩
    | none => downloadPhase a env fspath strict_validation []
  else downloadPhase a env fspath strict_validation []

/-- `Artifact.save_to_dir(dirpath, strict_validation)`: assert the
directory exists and is a directory, join the artifact's filename onto
it, delegate to `save`. -/
def Artifact.save_to_dir (a : Artifact) (env : Env) (dirpath : String)
    (strict_validation : Bool) : SaveResult :=
  if env.direxists dirpath && env.isdir dirpath then
    a.save env (dirpath ++ "/" ++ a.filename) strict_validation
  else ⟨Except.error Err.assertError, [], env, a⟩

/-! ## Concrete sample data for evaluating the model -/

/-- A sample environment: every path holds `fs`-assigned contents, the
requester serves `[1, 2]` for every URL, the fingerprint oracle gives
the constant answers `valid`/`unknown`, and the digest of a byte
string is `"h"` followed by its length. -/
def envMk (fs : String → Option Bytes) (valid unknown : Bool) : Env :=
  { fs := fs
    http := fun _ => [1, 2]
    fpValid := fun _ _ _ _ _ => valid
    fpUnknown := fun _ _ => unknown
    md5hex := fun l => "h" ++ toString l.length
    direxists := fun _ => true
    isdir := fun _ => true }

/-- Sample build identity. -/
def buildA : Build := ⟨"jobA", 5, "http://jks"⟩

/-- Sample artifact owned by `buildA`. -/
def artifactA : Artifact := ⟨"a.txt", "http://jks/a.txt", some buildA, none⟩

/-- Sample artifact with no known build (falsy `self.build`). -/
def artifactNB : Artifact := ⟨"a.txt", "http://jks/a.txt", none, none⟩

/-- File present (empty), fingerprint valid and known. -/
def envOkV : Env := envMk (fun _ => some []) true false

/-- File present (empty), fingerprint valid but unknown to the server. -/
def envVU : Env := envMk (fun _ => some []) true true

/-- File present (empty), fingerprint invalid, known. -/
def envBad : Env := envMk (fun _ => some []) false false

/-- No local file, fingerprint valid: forces a download that then
verifies. -/
def envMiss : Env := envMk (fun _ => none) true false

/-- No local file, fingerprint invalid: forces a download whose fresh
verification fails. -/
def envMissBad : Env := envMk (fun _ => none) false false

/-! ## Lemmas on the `_md5sum` read loop -/

/-- With a positive chunk size and enough fuel, the read loop feeds
exactly the file's contents, appended after what was fed already. -/
theorem md5FeedAux_spec (c : Nat) (hc : 0 < c) :
    ∀ (fuel : Nat) (remaining fed : Bytes), remaining.length < fuel →
      md5FeedAux fuel remaining c fed = fed ++ remaining := by
  intro fuel
  induction fuel with
  | zero => intro remaining fed h; omega
  | succ n ih =>
    intro remaining fed h
    cases remaining with
    | nil => simp [md5FeedAux]
    | cons x xs =>
      have htake : ¬ ((x :: xs).take c).isEmpty := by
        cases c with
        | zero => omega
        | succ m => simp [List.take]
      have hlen : (List.drop c (x :: xs)).length < n := by
        have : (x :: xs).length ≤ n := Nat.lt_succ_iff.mp h
        have hd : (List.drop c (x :: xs)).length = (x :: xs).length - c :=
          List.length_drop c (x :: xs)
        simp only [List.length_cons] at this ⊢
        omega
      simp [md5FeedAux, htake, ih _ _ hlen, List.append_assoc,
        List.take_append_drop]

/-- For a positive chunk size, the bytes fed by `_md5sum` are the file
contents. -/
theorem md5Feed_eq (content : Bytes) (c : Nat) (hc : 0 < c) :
    md5Feed content c = content := by
  have := md5FeedAux_spec c hc (content.length + 1) content []
    (Nat.lt_succ_self _)
  simpa [md5Feed] using this

/-- With a positive chunk size and enough fuel, the verbatim loop
(sentinel comparison included) exits via the `break` with exactly the
file's contents fed. -/
theorem md5IterLoop_spec (c : Nat) (hc : 0 < c) :
    ∀ (fuel : Nat) (remaining fed : Bytes), remaining.length < fuel →
      md5IterLoop fuel remaining c fed = some (fed ++ remaining) := by
  intro fuel
  induction fuel with
  | zero => intro remaining fed h; omega
  | succ n ih =>
    intro remaining fed h
    cases remaining with
    | nil => simp [md5IterLoop, bytesEqEmptyStr]
    | cons x xs =>
      have htake : ¬ ((x :: xs).take c).isEmpty := by
        cases c with
        | zero => omega
        | succ m => simp [List.take]
      have hlen : (List.drop c (x :: xs)).length < n := by
        have : (x :: xs).length ≤ n := Nat.lt_succ_iff.mp h
        have hd : (List.drop c (x :: xs)).length = (x :: xs).length - c :=
          List.length_drop c (x :: xs)
        simp only [List.length_cons] at this ⊢
        omega
      simp [md5IterLoop, bytesEqEmptyStr, htake, ih _ _ hlen,
        List.append_assoc, List.take_append_drop]

/-! ## Claim theorems on `_md5sum` -/

/-- C7: for every file content and every pair of positive chunk sizes,
`_md5sum` produces the same hex digest, equal to the digest of the
full byte content computed in one pass. -/
theorem md5sum_chunk_independent (hex : Bytes → String) (content : Bytes)
    (c1 c2 : Nat) (h1 : 0 < c1) (h2 : 0 < c2) :
    md5sum hex content c1 = md5sum hex content c2 ∧
      md5sum hex content c1 = hex content := by
  unfold md5sum
  rw [md5Feed_eq content c1 h1, md5Feed_eq content c2 h2]
  exact ⟨rfl, rfl⟩

/-- Witness for C7 at content `[3, 1, 4]`, chunk sizes `1` and `2`. -/
theorem md5sum_chunk_independent_witness :
    md5sum (fun l => toString l.length) [3, 1, 4] 1 =
        md5sum (fun l => toString l.length) [3, 1, 4] 2 ∧
      md5sum (fun l => toString l.length) [3, 1, 4] 1 =
        (fun l : Bytes => toString l.length) [3, 1, 4] :=
  md5sum_chunk_independent (fun l => toString l.length) [3, 1, 4] 1 2
    (by decide) (by decide)

/-- C10: `_md5sum` terminates on every finite file for every positive
chunk size: although the `iter` sentinel is the text string `""`, which
a binary-mode read never returns, some finite fuel makes the verbatim
loop exit — via the explicit `break` on the empty chunk — having fed
exactly the bytes `md5Feed` describes. -/
theorem md5IterLoop_terminates (content : Bytes) (c : Nat) (hc : 0 < c) :
    ∃ fuel, md5IterLoop fuel content c [] = some (md5Feed content c) := by
  refine ⟨content.length + 1, ?_⟩
  rw [md5IterLoop_spec c hc (content.length + 1) content []
    (Nat.lt_succ_self _), md5Feed_eq content c hc]
  rfl

/-- Witness for C10 at content `[7, 7]`, chunk size `1`. -/
theorem md5IterLoop_terminates_witness :
    ∃ fuel, md5IterLoop fuel [7, 7] 1 [] = some (md5Feed [7, 7] 1) :=
  md5IterLoop_terminates [7, 7] 1 (by decide)

/-! ## Lemmas on `_verify_download` -/

/-- Reduction of `verify_download` once the file contents and the
build are known. -/
theorem verify_download_eq (env : Env) (a : Artifact) (fspath : String)
    (s : Bool) (content : Bytes) (b : Build)
    (hfs : env.fs fspath = some content) (hb : a.build = some b) :
    verify_download env a fspath s =
      (if !(env.fpValid b.baseurl (env.md5hex (md5Feed content 1048576))
            a.filename b.jobFullName b.buildno)
          || (env.fpUnknown b.baseurl (env.md5hex (md5Feed content 1048576)) && s) then
        Except.error (Err.artifactBroken
          ("Artifact " ++ env.md5hex (md5Feed content 1048576)
            ++ " seems to be broken, check " ++ b.baseurl))
      else Except.ok true) := by
  unfold verify_download
  rw [hfs, hb]

/-- `_verify_download` can only return `True`: every `Except.ok` it
produces carries `true`. -/
theorem verify_download_ok_eq_true (env : Env) (a : Artifact) (fspath : String)
    (s r : Bool) (h : verify_download env a fspath s = Except.ok r) :
    r = true := by
  unfold verify_download at h
  cases hfs : env.fs fspath with
  | none => rw [hfs] at h; cases h
  | some content =>
    rw [hfs] at h
    cases hb : a.build with
    | none => rw [hb] at h; cases h
    | some b =>
      rw [hb] at h
      dsimp only at h
      split at h
      · cases h
      · injection h with h2; exact h2.symm

/-! ## Claim theorems on `_verify_download` -/

/-- C1 (counterexample): with `validate_for_build` returning true but
the fingerprint unknown and `strict_validation` set, `_verify_download`
raises `ArtifactBroken` instead of succeeding, so a true validation
result does not suffice for every value of `strict_validation` and of
the unknown flag. -/
theorem verify_valid_strict_unknown_raises :
    envVU.fpValid buildA.baseurl (envVU.md5hex (md5Feed [] 1048576))
        artifactA.filename buildA.jobFullName buildA.buildno = true ∧
      verify_download envVU artifactA "p" true =
        Except.error (Err.artifactBroken
          "Artifact h0 seems to be broken, check http://jks") :=
  ⟨rfl, rfl⟩

/-- C1 (amended): if `validate_for_build` returns true and it is not
the case that the fingerprint is unknown while `strict_validation` is
set, then `_verify_download` succeeds, returning `True`. -/
theorem verify_download_valid_ok (env : Env) (a : Artifact) (fspath : String)
    (s : Bool) (content : Bytes) (b : Build)
    (hfs : env.fs fspath = some content) (hb : a.build = some b)
    (hvalid : env.fpValid b.baseurl (env.md5hex (md5Feed content 1048576))
      a.filename b.jobFullName b.buildno = true)
    (hnous : (env.fpUnknown b.baseurl (env.md5hex (md5Feed content 1048576)) && s)
      = false) :
    verify_download env a fspath s = Except.ok true := by
  rw [verify_download_eq env a fspath s content b hfs hb]
  simp [hvalid, hnous]

/-- Witness for the amended C1: valid and unknown fingerprint, but
`strict_validation` off — verification succeeds. -/
theorem verify_download_valid_ok_witness :
    verify_download envVU artifactA "p" false = Except.ok true :=
  verify_download_valid_ok envVU artifactA "p" false [] buildA rfl rfl rfl rfl

/-- C2: whenever `validate_for_build` returns false, `_verify_download`
raises `ArtifactBroken`, for every value of `strict_validation` and of
the fingerprint's unknown flag. -/
theorem verify_download_invalid_raises (env : Env) (a : Artifact) (fspath : String)
    (s : Bool) (content : Bytes) (b : Build)
    (hfs : env.fs fspath = some content) (hb : a.build = some b)
    (hvalid : env.fpValid b.baseurl (env.md5hex (md5Feed content 1048576))
      a.filename b.jobFullName b.buildno = false) :
    ∃ msg, verify_download env a fspath s = Except.error (Err.artifactBroken msg) := by
  refine ⟨"Artifact " ++ env.md5hex (md5Feed content 1048576)
    ++ " seems to be broken, check " ++ b.baseurl, ?_⟩
  rw [verify_download_eq env a fspath s content b hfs hb]
  simp [hvalid]

/-- Witness for C2 with `strict_validation` on and unknown off. -/
theorem verify_download_invalid_raises_witness :
    ∃ msg, verify_download envBad artifactA "p" true =
      Except.error (Err.artifactBroken msg) :=
  verify_download_invalid_raises envBad artifactA "p" true [] buildA rfl rfl rfl

/-- C6: every `ArtifactBroken` raised by `_verify_download` carries a
message containing the computed local checksum and the server base
URL. -/
theorem verify_download_error_message (env : Env) (a : Artifact) (fspath : String)
    (s : Bool) (msg : String)
    (h : verify_download env a fspath s = Except.error (Err.artifactBroken msg)) :
    ∃ content b, env.fs fspath = some content ∧ a.build = some b ∧
      (∃ u v, msg = u ++ env.md5hex (md5Feed content 1048576) ++ v) ∧
      (∃ u v, msg = u ++ b.baseurl ++ v) := by
  unfold verify_download at h
  cases hfs : env.fs fspath with
  | none => rw [hfs] at h; cases h
  | some content =>
    rw [hfs] at h
    cases hb : a.build with
    | none => rw [hb] at h; cases h
    | some b =>
      rw [hb] at h
      dsimp only at h
      refine ⟨content, b, rfl, rfl, ?_, ?_⟩
      all_goals split at h
      case isTrue =>
        injection h with h1
        injection h1 with h2
        exact ⟨"Artifact ", " seems to be broken, check " ++ b.baseurl,
          by rw [← h2]; simp [String.append_assoc]⟩
      case isFalse => cases h
      case isTrue =>
        injection h with h1
        injection h1 with h2
        exact ⟨"Artifact " ++ env.md5hex (md5Feed content 1048576)
            ++ " seems to be broken, check ", "",
          by rw [← h2]; simp [String.append_assoc]⟩
      case isFalse => cases h

/-- Witness for C6: a concrete raised message contains checksum `h0`
and base URL `http://jks`. -/
theorem verify_download_error_message_witness :
    ∃ content b, envBad.fs "p" = some content ∧ artifactA.build = some b ∧
      (∃ u v, "Artifact h0 seems to be broken, check http://jks"
        = u ++ envBad.md5hex (md5Feed content 1048576) ++ v) ∧
      (∃ u v, "Artifact h0 seems to be broken, check http://jks"
        = u ++ b.baseurl ++ v) :=
  verify_download_error_message envBad artifactA "p" false
    "Artifact h0 seems to be broken, check http://jks" rfl

/-- C9: `_verify_download` never returns anything but `True`: a caller
observing a returned value always observes `true`; failure is
signalled only by raising. -/
theorem verify_download_never_false (env : Env) (a : Artifact) (fspath : String)
    (s r : Bool) (h : verify_download env a fspath s = Except.ok r) :
    r = true :=
  verify_download_ok_eq_true env a fspath s r h

/-- Witness for C9 at a concrete succeeding verification. -/
theorem verify_download_never_false_witness : true = true :=
  verify_download_never_false envOkV artifactA "p" false true rfl

/-! ## Lemmas on `save` -/

theorem do_download_eq_some (a : Artifact) (env : Env) (fspath : String) (b : Build)
    (hb : a.build = some b) :
    do_download a env fspath =
      Except.ok (fspath, setFile env fspath (env.http a.url)) := by
  unfold do_download; rw [hb]

theorem do_download_eq_none (a : Artifact) (env : Env) (fspath : String)
    (hb : a.build = none) :
    do_download a env fspath = Except.error Err.attrError := by
  unfold do_download; rw [hb]

theorem setFile_fs_self (env : Env) (p : String) (c : Bytes) :
    (setFile env p c).fs p = some c := by
  simp [setFile]

theorem downloadPhase_dl_err (a : Artifact) (env : Env) (fspath : String) (s : Bool)
    (acts : List Action) (e : Err)
    (h : do_download a env fspath = Except.error e) :
    downloadPhase a env fspath s acts =
      ⟨Except.error e, acts ++ [Action.download], env, a⟩ := by
  simp only [downloadPhase, h]

theorem downloadPhase_ok (a : Artifact) (env env2 : Env) (fspath p : String)
    (s : Bool) (acts : List Action) (r : Bool)
    (hdl : do_download a env fspath = Except.ok (p, env2))
    (hv : verify_download env2 a p s = Except.ok r) :
    downloadPhase a env fspath s acts =
      ⟨Except.ok fspath, acts ++ [Action.download, Action.verifyFresh], env2, a⟩ := by
  simp only [downloadPhase, hdl, hv]

theorem downloadPhase_verr (a : Artifact) (env env2 : Env) (fspath p : String)
    (s : Bool) (acts : List Action) (e : Err)
    (hdl : do_download a env fspath = Except.ok (p, env2))
    (hv : verify_download env2 a p s = Except.error e) :
    downloadPhase a env fspath s acts =
      ⟨Except.error e, acts ++ [Action.download, Action.verifyFresh], env2, a⟩ := by
  simp only [downloadPhase, hdl, hv]

theorem save_eq_of_ok (a : Artifact) (env : Env) (fspath : String) (s : Bool)
    (b : Build) (r : Bool)
    (hfs : (env.fs fspath).isSome = true) (hb : a.build = some b)
    (hv : verify_download env a fspath s = Except.ok r) :
    a.save env fspath s = ⟨Except.ok fspath, [Action.verifyExisting], env, a⟩ := by
  simp only [Artifact.save, hfs, hb, hv, if_true]

theorem save_eq_of_broken (a : Artifact) (env : Env) (fspath : String) (s : Bool)
    (b : Build) (m : String)
    (hfs : (env.fs fspath).isSome = true) (hb : a.build = some b)
    (hv : verify_download env a fspath s = Except.error (Err.artifactBroken m)) :
    a.save env fspath s = downloadPhase a env fspath s [Action.verifyExisting] := by
  simp only [Artifact.save, hfs, hb, hv, if_true]

theorem save_eq_of_io (a : Artifact) (env : Env) (fspath : String) (s : Bool)
    (b : Build)
    (hfs : (env.fs fspath).isSome = true) (hb : a.build = some b)
    (hv : verify_download env a fspath s = Except.error Err.ioError) :
    a.save env fspath s =
      ⟨Except.error Err.ioError, [Action.verifyExisting], env, a⟩ := by
  simp only [Artifact.save, hfs, hb, hv, if_true]

theorem save_eq_of_attr (a : Artifact) (env : Env) (fspath : String) (s : Bool)
    (b : Build)
    (hfs : (env.fs fspath).isSome = true) (hb : a.build = some b)
    (hv : verify_download env a fspath s = Except.error Err.attrError) :
    a.save env fspath s =
      ⟨Except.error Err.attrError, [Action.verifyExisting], env, a⟩ := by
  simp only [Artifact.save, hfs, hb, hv, if_true]

theorem save_eq_of_assert (a : Artifact) (env : Env) (fspath : String) (s : Bool)
    (b : Build)
    (hfs : (env.fs fspath).isSome = true) (hb : a.build = some b)
    (hv : verify_download env a fspath s = Except.error Err.assertError) :
    a.save env fspath s =
      ⟨Except.error Err.assertError, [Action.verifyExisting], env, a⟩ := by
  simp only [Artifact.save, hfs, hb, hv, if_true]

theorem save_eq_of_nobuild (a : Artifact) (env : Env) (fspath : String) (s : Bool)
    (hfs : (env.fs fspath).isSome = true) (hb : a.build = none) :
    a.save env fspath s = downloadPhase a env fspath s [] := by
  simp only [Artifact.save, hfs, hb, if_true]

theorem save_eq_of_missing (a : Artifact) (env : Env) (fspath : String) (s : Bool)
    (hfs : (env.fs fspath).isSome = false) :
    a.save env fspath s = downloadPhase a env fspath s [] := by
  simp only [Artifact.save, hfs, Bool.false_eq_true, if_false]

/-- After a download phase that returned successfully, re-running
`save` on the resulting filesystem performs no download: the fresh
file verifies again and the idempotent short-circuit fires. -/
theorem downloadPhase_then_no_redownload (a : Artifact) (env : Env) (fspath : String)
    (s : Bool) (b : Build) (acts : List Action) (p : String)
    (hb : a.build = some b)
    (hp : (downloadPhase a env fspath s acts).result = Except.ok p) :
    Action.download ∉
      (a.save ((downloadPhase a env fspath s acts).env) fspath s).actions := by
  have hdl := do_download_eq_some a env fspath b hb
  cases hv2 : verify_download (setFile env fspath (env.http a.url)) a fspath s with
  | error e3 =>
    rw [downloadPhase_verr a env _ fspath fspath s acts e3 hdl hv2] at hp
    cases hp
  | ok r2 =>
    have hr2 := verify_download_ok_eq_true _ a fspath s r2 hv2
    subst hr2
    rw [downloadPhase_ok a env _ fspath fspath s acts true hdl hv2]
    dsimp only
    rw [save_eq_of_ok a _ fspath s b true (by rw [setFile_fs_self]; rfl) hb hv2]
    simp

/-! ## Claim theorems on `save` -/

/-- C3: with a known build and a successfully verifying existing file,
`save` returns the path at once and performs no download; and after
any successful `save`, an immediately repeated `save` performs zero
downloads. -/
theorem save_idempotent (a : Artifact) (env : Env) (fspath : String) (s : Bool)
    (b : Build) :
    ((env.fs fspath).isSome = true → a.build = some b →
      verify_download env a fspath s = Except.ok true →
      (a.save env fspath s).result = Except.ok fspath ∧
        Action.download ∉ (a.save env fspath s).actions) ∧
    (∀ p, (a.save env fspath s).result = Except.ok p →
      Action.download ∉ (a.save ((a.save env fspath s).env) fspath s).actions) := by
  constructor
  · intro hfs hb hv
    rw [save_eq_of_ok a env fspath s b true hfs hb hv]
    exact ⟨rfl, by simp⟩
  · intro p hp
    by_cases hfs : (env.fs fspath).isSome = true
    · cases hb : a.build with
      | none =>
        rw [save_eq_of_nobuild a env fspath s hfs hb,
          downloadPhase_dl_err a env fspath s [] Err.attrError
            (do_download_eq_none a env fspath hb)] at hp
        cases hp
      | some b2 =>
        cases hv : verify_download env a fspath s with
        | ok r =>
          have hr := verify_download_ok_eq_true env a fspath s r hv
          subst hr
          have h1 := save_eq_of_ok a env fspath s b2 true hfs hb hv
          rw [h1]
          dsimp only
          rw [h1]
          simp
        | error e =>
          cases e with
          | artifactBroken m =>
            rw [save_eq_of_broken a env fspath s b2 m hfs hb hv] at hp ⊢
            exact downloadPhase_then_no_redownload a env fspath s b2 _ p hb hp
          | ioError =>
            rw [save_eq_of_io a env fspath s b2 hfs hb hv] at hp
            cases hp
          | attrError =>
            rw [save_eq_of_attr a env fspath s b2 hfs hb hv] at hp
            cases hp
          | assertError =>
            rw [save_eq_of_assert a env fspath s b2 hfs hb hv] at hp
            cases hp
    · have hfs2 : (env.fs fspath).isSome = false := by simpa using hfs
      rw [save_eq_of_missing a env fspath s hfs2] at hp ⊢
      cases hb : a.build with
      | none =>
        rw [downloadPhase_dl_err a env fspath s [] Err.attrError
          (do_download_eq_none a env fspath hb)] at hp
        cases hp
      | some b2 =>
        exact downloadPhase_then_no_redownload a env fspath s b2 [] p hb hp

/-- Witness for C3: existing valid file — first save yields the path
with no download, and a repeated save performs no download either. -/
theorem save_idempotent_witness :
    ((artifactA.save envOkV "p" false).result = Except.ok "p" ∧
      Action.download ∉ (artifactA.save envOkV "p" false).actions) ∧
      Action.download ∉
        (artifactA.save ((artifactA.save envOkV "p" false).env) "p" false).actions := by
  have h := save_idempotent artifactA envOkV "p" false buildA
  have h1 := h.1 rfl rfl rfl
  exact ⟨h1, h.2 "p" h1.1⟩

/-- C4: whenever the download step runs during `save`, a verification
failure on the freshly downloaded file propagates to the caller as the
result of `save` — it is never swallowed. -/
theorem save_fresh_verify_propagates (a : Artifact) (env env2 : Env)
    (fspath p : String) (s : Bool) (e : Err)
    (hdl : do_download a env fspath = Except.ok (p, env2))
    (hvf : verify_download env2 a p s = Except.error e)
    (hact : Action.download ∈ (a.save env fspath s).actions) :
    (a.save env fspath s).result = Except.error e := by
  cases hb : a.build with
  | none => rw [do_download_eq_none a env fspath hb] at hdl; cases hdl
  | some b =>
    by_cases hfs : (env.fs fspath).isSome = true
    · cases hv : verify_download env a fspath s with
      | ok r =>
        rw [save_eq_of_ok a env fspath s b r hfs hb hv] at hact
        simp at hact
      | error e1 =>
        cases e1 with
        | artifactBroken m =>
          rw [save_eq_of_broken a env fspath s b m hfs hb hv,
            downloadPhase_verr a env env2 fspath p s [Action.verifyExisting] e hdl hvf]
        | ioError =>
          rw [save_eq_of_io a env fspath s b hfs hb hv] at hact
          simp at hact
        | attrError =>
          rw [save_eq_of_attr a env fspath s b hfs hb hv] at hact
          simp at hact
        | assertError =>
          rw [save_eq_of_assert a env fspath s b hfs hb hv] at hact
          simp at hact
    · have hfs2 : (env.fs fspath).isSome = false := by simpa using hfs
      rw [save_eq_of_missing a env fspath s hfs2,
        downloadPhase_verr a env env2 fspath p s [] e hdl hvf]

/-- Witness for C4: no local file, invalid fingerprint — the fresh
download fails verification and `save` surfaces the `ArtifactBroken`. -/
theorem save_fresh_verify_propagates_witness :
    (artifactA.save envMissBad "p" false).result =
      Except.error (Err.artifactBroken
        "Artifact h2 seems to be broken, check http://jks") :=
  save_fresh_verify_propagates artifactA envMissBad
    (setFile envMissBad "p" (envMissBad.http artifactA.url)) "p" "p" false
    (Err.artifactBroken "Artifact h2 seems to be broken, check http://jks")
    rfl rfl (by decide)

/-- C5: when the artifact has no known build and a file already exists
at the destination, `save` never verifies the existing file and always
proceeds to the download step, whatever the existing content. -/
theorem save_no_build_redownloads (a : Artifact) (env : Env) (fspath : String)
    (s : Bool) (hb : a.build = none) (hfs : (env.fs fspath).isSome = true) :
    Action.verifyExisting ∉ (a.save env fspath s).actions ∧
      Action.download ∈ (a.save env fspath s).actions := by
  rw [save_eq_of_nobuild a env fspath s hfs hb,
    downloadPhase_dl_err a env fspath s [] Err.attrError
      (do_download_eq_none a env fspath hb)]
  exact ⟨by simp, by simp⟩

/-- Witness for C5: untracked artifact over an existing file. -/
theorem save_no_build_redownloads_witness :
    Action.verifyExisting ∉ (artifactNB.save envOkV "p" false).actions ∧
      Action.download ∈ (artifactNB.save envOkV "p" false).actions :=
  save_no_build_redownloads artifactNB envOkV "p" false rfl rfl

/-- The download phase leaves the artifact object untouched. -/
theorem downloadPhase_artifact (a : Artifact) (env : Env) (p : String) (s : Bool)
    (acts : List Action) :
    (downloadPhase a env p s acts).artifact = a := by
  cases hdl : do_download a env p with
  | error e => rw [downloadPhase_dl_err a env p s acts e hdl]
  | ok pr =>
    obtain ⟨fp, env2⟩ := pr
    cases hv : verify_download env2 a fp s with
    | error e => rw [downloadPhase_verr a env env2 p fp s acts e hdl hv]
    | ok r => rw [downloadPhase_ok a env env2 p fp s acts r hdl hv]

/-- `save` leaves the artifact object untouched on every path. -/
theorem save_artifact (a : Artifact) (env : Env) (p : String) (s : Bool) :
    (a.save env p s).artifact = a := by
  by_cases hfs : (env.fs p).isSome = true
  · cases hb : a.build with
    | none => rw [save_eq_of_nobuild a env p s hfs hb]; exact downloadPhase_artifact a env p s []
    | some b =>
      cases hv : verify_download env a p s with
      | ok r => rw [save_eq_of_ok a env p s b r hfs hb hv]
      | error e =>
        cases e with
        | artifactBroken m =>
          rw [save_eq_of_broken a env p s b m hfs hb hv]
          exact downloadPhase_artifact a env p s [Action.verifyExisting]
        | ioError => rw [save_eq_of_io a env p s b hfs hb hv]
        | attrError => rw [save_eq_of_attr a env p s b hfs hb hv]
        | assertError => rw [save_eq_of_assert a env p s b hfs hb hv]
  · have hfs2 : (env.fs p).isSome = false := by simpa using hfs
    rw [save_eq_of_missing a env p s hfs2]
    exact downloadPhase_artifact a env p s []

/-- C8: an `Artifact` is immutable once constructed — after any
`save` or `save_to_dir` call, on every path including error paths, the
artifact object and each of its fields `filename`, `url`, `build` and
`relative_path` are unchanged; `_verify_download` is a pure function
of the artifact and cannot alter it. -/
theorem artifact_immutable (a : Artifact) (env : Env) (fspath dirpath : String)
    (s : Bool) :
    (a.save env fspath s).artifact = a ∧
    (a.save env fspath s).artifact.filename = a.filename ∧
    (a.save env fspath s).artifact.url = a.url ∧
    (a.save env fspath s).artifact.build = a.build ∧
    (a.save env fspath s).artifact.relative_path = a.relative_path ∧
    (a.save_to_dir env dirpath s).artifact = a := by
  have hs := save_artifact a env fspath s
  refine ⟨hs, by rw [hs], by rw [hs], by rw [hs], by rw [hs], ?_⟩
  unfold Artifact.save_to_dir
  by_cases hd : (env.direxists dirpath && env.isdir dirpath) = true
  · rw [if_pos hd]; exact save_artifact a env _ s
  · rw [if_neg hd]

end Jenkinsapi
